import Mathlib

/-
Verification of the PullRider webhook bot.

The Python sources (main.py, core/handlers.py, core/clients.py, core/models.py,
core/database.py, core/config.py) are shallowly embedded below.  Effectful code
is modelled by passing an explicit environment `Env` that fixes the response of
every outbound call (GitHub REST, the Gemini endpoint, the SQLite key store and
process configuration), and each handler returns the ordered trace of outbound
calls it performs, mirroring the sequential `await` structure of the source.
Python truthiness tests on optional strings, lists and JSON values are embedded
explicitly (`pyTruthyStr`, `Json.pyTruthy`, `List.isEmpty`).
-/

/- ===== String helpers (Python `in`, `endswith`, `strip`, `replace`) ===== -/

def listHasLead (s pat : List Char) : Bool :=
  match pat with
  | [] => true
  | p :: ps =>
    match s with
    | [] => false
    | a :: as => a == p && listHasLead as ps

def listHasSub (s pat : List Char) : Bool :=
  match s with
  | [] => pat.isEmpty
  | _ :: as => listHasLead s pat || listHasSub as pat

/-- Python `pat in s` on strings. -/
def strHasSub (s pat : String) : Bool :=
  listHasSub s.data pat.data

/-- Python `s.endswith(pat)`. -/
def strEndsWithStr (s pat : String) : Bool :=
  listHasLead s.data.reverse pat.data.reverse

def trimCharList (l : List Char) : List Char :=
  ((l.dropWhile Char.isWhitespace).reverse.dropWhile Char.isWhitespace).reverse

/-- Python `s.replace("\x60", "").strip()` as used by `GeminiClient.classify_issue`. -/
def pyStripTicks (s : String) : String :=
  String.mk (trimCharList (s.data.filter (fun c => c != Char.ofNat 96)))

/-- Python `opt or dflt` for an optional string (None and "" are falsy). -/
def pyOrStr (o : Option String) (dflt : String) : String :=
  match o with
  | some s => if s == "" then dflt else s
  | none => dflt

/-- Python truthiness of an optional string, keeping the value when truthy. -/
def pyTruthyStr (o : Option String) : Option String :=
  match o with
  | some s => if s == "" then none else some s
  | none => none

/- ===== JSON values (the parsed webhook body in main.py) ===== -/

inductive Json where
  | null
  | bool (b : Bool)
  | num (n : Int)
  | str (s : String)
  | arr (elems : List Json)
  | obj (fields : List (String × Json))

def jsonLookup (fields : List (String × Json)) (k : String) : Option Json :=
  match fields with
  | [] => none
  | (k', v) :: rest => if k' == k then some v else jsonLookup rest k

/-- Python `d.get(k)` on a JSON dict (None on a non-dict, see note at use site). -/
def Json.getField : Json → String → Option Json
  | .obj fs, k => jsonLookup fs k
  | _, _ => none

/-- Python truthiness of a JSON value. -/
def Json.pyTruthy : Json → Bool
  | .null => false
  | .bool b => b
  | .num n => n != 0
  | .str s => !s.isEmpty
  | .arr xs => !xs.isEmpty
  | .obj fs => !fs.isEmpty

def truthyOptJson (o : Option Json) : Bool :=
  match o with
  | some j => j.pyTruthy
  | none => false

/- ===== core/models.py: the pydantic payload models ===== -/

structure GitHubUser where
  login : String
deriving DecidableEq

structure Comment where
  body : String
  user : GitHubUser
deriving DecidableEq

structure Issue where
  number : Int
  title : String
  body : Option String
  user : GitHubUser
  comments_url : String
  pull_request : Option Json

structure PullRequest where
  number : Int
  title : String
  body : Option String
  user : GitHubUser
  comments_url : String
  diff_url : String
  draft : Bool

structure Repository where
  full_name : String
  owner : GitHubUser

structure PREventPayload where
  action : String
  pull_request : PullRequest
  repository : Repository

structure IssueEventPayload where
  action : String
  issue : Issue
  repository : Repository

structure IssueCommentPayload where
  action : String
  issue : Issue
  comment : Comment
  repository : Repository

structure InstallationInfo where
  id : Int
  account : GitHubUser

structure InstallationPayload where
  action : String
  installation : InstallationInfo
  repositories : Option (List Json)

/- ===== pydantic validation: `model(**payload)` as parsers Json → Option model.
   A missing required field (or a field of the wrong shape) fails the parse,
   matching the ValidationError raised by pydantic. ===== -/

def getStrField (j : Json) (k : String) : Option String :=
  match j.getField k with
  | some (.str s) => some s
  | _ => none

def getIntField (j : Json) (k : String) : Option Int :=
  match j.getField k with
  | some (.num n) => some n
  | _ => none

def getBoolField (j : Json) (k : String) : Option Bool :=
  match j.getField k with
  | some (.bool b) => some b
  | _ => none

/-- An `Optional[str]` field with a declared default (models.py uses `= ""`). -/
def getOptStrField (j : Json) (k : String) (dflt : Option String) : Option (Option String) :=
  match j.getField k with
  | none => some dflt
  | some .null => some none
  | some (.str s) => some (some s)
  | some _ => none

/-- An `Optional[dict] = None` field (Issue.pull_request). -/
def getOptObjField (j : Json) (k : String) : Option (Option Json) :=
  match j.getField k with
  | none => some none
  | some .null => some none
  | some (.obj fs) => some (some (.obj fs))
  | some _ => none

/-- An `Optional[List[Dict]] = None` field (InstallationPayload.repositories). -/
def getOptArrField (j : Json) (k : String) : Option (Option (List Json)) :=
  match j.getField k with
  | none => some none
  | some .null => some none
  | some (.arr xs) =>
    if xs.all (fun x => match x with | .obj _ => true | _ => false) then some (some xs) else none
  | some _ => none

def parseGitHubUser (j : Json) : Option GitHubUser := do
  let login ← getStrField j "login"
  pure ⟨login⟩

def parseComment (j : Json) : Option Comment := do
  let body ← getStrField j "body"
  let user ← (j.getField "user").bind parseGitHubUser
  pure ⟨body, user⟩

def parseIssue (j : Json) : Option Issue := do
  let number ← getIntField j "number"
  let title ← getStrField j "title"
  let body ← getOptStrField j "body" (some "")
  let user ← (j.getField "user").bind parseGitHubUser
  let comments_url ← getStrField j "comments_url"
  let pull_request ← getOptObjField j "pull_request"
  pure ⟨number, title, body, user, comments_url, pull_request⟩

def parsePullRequest (j : Json) : Option PullRequest := do
  let number ← getIntField j "number"
  let title ← getStrField j "title"
  let body ← getOptStrField j "body" (some "")
  let user ← (j.getField "user").bind parseGitHubUser
  let comments_url ← getStrField j "comments_url"
  let diff_url ← getStrField j "diff_url"
  let draft ← getBoolField j "draft"
  pure ⟨number, title, body, user, comments_url, diff_url, draft⟩

def parseRepository (j : Json) : Option Repository := do
  let full_name ← getStrField j "full_name"
  let owner ← (j.getField "owner").bind parseGitHubUser
  pure ⟨full_name, owner⟩

def parsePREventPayload (j : Json) : Option PREventPayload := do
  let action ← getStrField j "action"
  let pr ← (j.getField "pull_request").bind parsePullRequest
  let repo ← (j.getField "repository").bind parseRepository
  pure ⟨action, pr, repo⟩

def parseIssueEventPayload (j : Json) : Option IssueEventPayload := do
  let action ← getStrField j "action"
  let issue ← (j.getField "issue").bind parseIssue
  let repo ← (j.getField "repository").bind parseRepository
  pure ⟨action, issue, repo⟩

def parseIssueCommentPayload (j : Json) : Option IssueCommentPayload := do
  let action ← getStrField j "action"
  let issue ← (j.getField "issue").bind parseIssue
  let comment ← (j.getField "comment").bind parseComment
  let repo ← (j.getField "repository").bind parseRepository
  pure ⟨action, issue, comment, repo⟩

def parseInstallationInfo (j : Json) : Option InstallationInfo := do
  let id ← getIntField j "id"
  let account ← (j.getField "account").bind parseGitHubUser
  pure ⟨id, account⟩

def parseInstallationPayload (j : Json) : Option InstallationPayload := do
  let action ← getStrField j "action"
  let inst ← (j.getField "installation").bind parseInstallationInfo
  let repositories ← getOptArrField j "repositories"
  pure ⟨action, inst, repositories⟩

/- ===== Outbound calls and the response environment ===== -/

/-- One outbound effect performed by a handler, in program order:
GitHub REST calls, Gemini calls and database writes (core/clients.py and
core/database.py entry points used by core/handlers.py). -/
inductive Call where
  | logPR (pr_number : Int) (repo_full_name title author : String)
  | logIssue (issue_number : Int) (repo_full_name title author : String)
  | getComments (url : String)
  | getRepoSecret (repo_full_name secret_name : String)
  | getDbKey (installation_id : Int)
  | getPRFiles (repo_full_name : String) (pr_number : Int)
  | getConfigFile (repo_full_name : String)
  | getPRDiff (url : String)
  | getFileContent (contents_url : String)
  | getPRDetails (repo_full_name : String) (pr_number : Int)
  | llmCall (api_key prompt : String)
  | postComment (url body : String)
  | closeIssue (repo_full_name : String) (issue_number : Int)
deriving DecidableEq

/-- One entry of the changed-file list returned by `GitHubClient.get_pr_files`;
the handler reads `filename`, `status` and `contents_url` (handlers.py 89-110). -/
structure ChangedFile where
  filename : String
  status : String
  contents_url : String
deriving DecidableEq

/-- Responses of the external world: each field fixes what one kind of outbound
request returns.  `none` stands for the failure sentinel (`None` in Python) that
`GitHubClient._make_request` produces on an HTTP error; empty strings and empty
lists are kept so that Python truthiness tests can be embedded faithfully. -/
structure Env where
  botName : String
  comments : String → Option (List Comment)
  dbKey : Int → Option String
  fallbackKey : Option String
  prFiles : String → Int → Option (List ChangedFile)
  configRules : String → Option (List String)
  prDiff : String → Option String
  fileContent : String → Option String
  prDetails : String → Int → Option (PullRequest × Repository)
  llm : String → String → String

/-- `GitHubClient.get_bot_last_comment`: fetch the comments, keep those whose
author login is `BOT_NAME + "[bot]"`, return the last one (clients.py 28-32). -/
def getBotLastComment (env : Env) (comments_url : String) : Option Comment :=
  match env.comments comments_url with
  | none => none
  | some cs => (cs.filter (fun c => c.user.login == env.botName ++ "[bot]")).getLast?

/-- `GitHubClient.get_repo_secret` (clients.py 44-47): a placeholder that
always answers `None` without making a request. -/
def get_repo_secret (_repo_full_name _secret_name : String) : Option String :=
  none

structure GeminiClient where
  api_key : String
deriving DecidableEq

/- ===== core/clients.py: GeminiClient prompt builders ===== -/

/-- Prompt of `GeminiClient.analyze_code_with_context` (clients.py 91-106). -/
def analyzePrompt (pr_title diff : String) (file_contexts : List (String × String))
    (custom_rules : List String) : String :=
  let context_str := String.intercalate "\n\n" (file_contexts.map (fun fc =>
    "--- Full content of `" ++ fc.1 ++ "` ---\n```\n" ++ fc.2 ++ "\n```"))
  let rules_str := if custom_rules.isEmpty then "No custom rules provided."
    else String.intercalate "\n" (custom_rules.map (fun rule => "- " ++ rule))
  "You are PullRider, an expert developer with a friendly, sassy personality reviewing a PR. " ++
  "Analyze the code based on general best practices AND the user\x27s custom rules.\n\n" ++
  "**PR Title:** \"" ++ pr_title ++ "\"\n\n" ++
  "**Custom Rules to Enforce:**\n" ++ rules_str ++ "\n\n" ++
  "**Full File Contexts:**\n" ++ context_str ++ "\n\n" ++
  "**Code Diff:**\n```diff\n" ++ diff ++ "\n```\n\n" ++
  "Your task: Provide a concise, human-like review. Summarize the change, praise good work, and offer actionable suggestions if you see issues related to the custom rules or general best practices. Keep it friendly and to the point."

/-- Prompt of `GeminiClient.follow_up_review` (clients.py 108-121). -/
def followUpPrompt (pr_title new_diff previous_review : String) : String :=
  "You are PullRider, doing a follow-up review on a PR. The user has made updates after your first review.\n\n" ++
  "**PR Title:** \"" ++ pr_title ++ "\"\n\n" ++
  "**Your PREVIOUS Review:**\n---\n" ++ previous_review ++ "\n---\n\n" ++
  "**The NEW Diff with their latest changes:**\n```diff\n" ++ new_diff ++ "\n```\n\n" ++
  "Your Task: Compare the new diff to your previous review.\n" ++
  "1. Acknowledge their updates. (e.g., \x27Hey, thanks for the updates!\x27)\n" ++
  "2. Check if they addressed your main suggestions. If they did, praise them! (e.g., \x27Nice, I see you fixed the loop issue.\x27)\n" ++
  "3. If any major suggestions are still unaddressed, gently remind them.\n" ++
  "4. Briefly review the new changes for any new issues.\n" ++
  "Keep it short, friendly, and conversational."

/-- Prompt of `GeminiClient.classify_issue` (clients.py 123-134). -/
def classifyPrompt (title : String) (body : Option String) : String :=
  let issue_text := "Title: " ++ title ++ "\nBody: " ++ pyOrStr body "No content"
  "You are a triage bot. Classify the following GitHub issue into ONE of the following categories: " ++
  "`Bug Report`, `Feature Request`, `Question`, `Social`, `Spam/Unclear`. " ++
  "Only return the category name and nothing else.\n\n" ++
  "ISSUE:\n---\n" ++ issue_text

/-- Prompt of `GeminiClient.get_social_reply` (clients.py 136-142). -/
def socialPrompt (issue_title user_login : String) : String :=
  "You are a witty and friendly AI bot named PullRider. A user named \x27" ++ user_login ++
  "\x27 created a GitHub issue with the title \x27" ++ issue_title ++ "\x27. " ++
  "This is not a real bug report, just a social comment. " ++
  "Write a short, fun, human-like reply. If they ask your name, tell them. If they say hi, say hi back. Keep it brief and friendly, then say you\x27re closing the issue to keep things tidy."

/-- Prompt of `GeminiClient.get_issue_quality_analysis` (clients.py 144-152). -/
def qualityPrompt (title : String) (body : Option String) : String :=
  let issue_text := "Title: " ++ title ++ "\n\nBody:\n" ++ pyOrStr body "No description provided."
  "You are an expert project manager. Analyze the quality of the following GitHub issue. " ++
  "If it\x27s low-quality or vague, provide specific, friendly suggestions on how to improve it. " ++
  "If it\x27s a well-written issue, praise the user for the clear report.\n\n" ++
  "ISSUE:\n---\n" ++ issue_text

/-- `GeminiClient.classify_issue`: the raw completion with backticks removed and
whitespace stripped (clients.py 131-134). -/
def classify_issue (env : Env) (api_key title : String) (body : Option String) : String :=
  pyStripTicks (env.llm api_key (classifyPrompt title body))

/- ===== core/handlers.py: credential resolution ===== -/

/-- `get_gemini_client_for_install` (handlers.py 11-33): repo secret, then the
per-installation database key, then the operator fallback key, each guarded by
Python truthiness; `None` when all three are absent. -/
def get_gemini_client_for_install (env : Env) (repo_full_name : String)
    (installation_id : Int) : Option GeminiClient :=
  match pyTruthyStr (get_repo_secret repo_full_name "PULLRIDER_GEMINI_KEY") with
  | some s => some ⟨s⟩
  | none =>
    match pyTruthyStr (env.dbKey installation_id) with
    | some k => some ⟨k⟩
    | none =>
      match pyTruthyStr env.fallbackKey with
      | some f => some ⟨f⟩
      | none => none

/-- The outbound lookups performed by `get_gemini_client_for_install`: the
(simulated) repo-secret check, then — because that check never succeeds — the
database read.  The fallback key is process configuration, not a call. -/
def credLookupCalls (repo_full_name : String) (installation_id : Int) : List Call :=
  Call.getRepoSecret repo_full_name "PULLRIDER_GEMINI_KEY" ::
    (match get_repo_secret repo_full_name "PULLRIDER_GEMINI_KEY" with
     | some _ => []
     | none => [Call.getDbKey installation_id])

/-- Modelled from the spec: the credential chain as the spec words it — the
sources in fixed order, "first match wins" / "a client built from the first
present value".  Used only to compare against `get_gemini_client_for_install`. -/
def specCredentialChain (repoSecret dbKey fallback : Option String) : Option String :=
  match repoSecret with
  | some s => some s
  | none =>
    match dbKey with
    | some k => some k
    | none => fallback

/- ===== core/handlers.py: message literals ===== -/

/-- Setup-instructions comment (handlers.py 62-63). -/
def setupMsg : String :=
  "👋 Hello! To get AI-powered reviews, please complete the setup. You can re-install the app on this repo to access the setup page."

/-- Draft-PR wait message (handlers.py 82). -/
def draftMsg (login : String) : String :=
  "Hey @" ++ login ++ ", thanks for starting this PR! I see it\x27s still a draft, so I\x27ll wait until you mark it as \x27Ready for Review\x27 before I do a full analysis. No pressure, just let me know when you\x27re ready!"

/-- Trivial-change acknowledgement (handlers.py 92). -/
def trivialMsg (login : String) : String :=
  "Thanks for the cleanup, @" ++ login ++ "! Appreciate you keeping the docs and project files tidy. I\x27ll let the owner handle this quick merge."

/-- Initial AI review comment body (handlers.py 116). -/
def reviewBody (login ai_review : String) : String :=
  "### 🤖 PullRider AI Review\n\nHey @" ++ login ++ "!\n\n" ++ ai_review

/-- Follow-up review comment body (handlers.py 74). -/
def followUpBody (login ai_review : String) : String :=
  "### 🤖 PullRider Follow-up\n\nHey @" ++ login ++ "!\n\n" ++ ai_review

/-- Issue quality-analysis comment body (handlers.py 143). -/
def issueHelperBody (login analysis : String) : String :=
  "### 🤖 PullRider Issue Helper\n\nHello @" ++ login ++ "! Thanks for opening this issue. Here\x27s a quick analysis to help us get started:\n\n---\n\n" ++ analysis

/-- Templated redirect for "Question" issues (handlers.py 150). -/
def questionReply (login : String) : String :=
  "Hey @" ++ login ++ "! It looks like you have a question. For general questions, it\x27s best to use the \x27Discussions\x27 tab... "

/-- Placeholder previous-review text (handlers.py 169-170). -/
def noRecordMsg : String :=
  "I don\x27t have a record of my previous review, but I\x27ll take a fresh look!"

/-- The trivial-change filename predicate (handlers.py 90):
`f.endswith((".md", ".txt")) or ".gitignore" in f`. -/
def trivialName (f : String) : Bool :=
  (strEndsWithStr f ".md" || strEndsWithStr f ".txt") || strHasSub f ".gitignore"

/- ===== core/handlers.py: the handlers as trace functions ===== -/

/-- `handle_pull_request_event` (handlers.py 44-118) as the ordered trace of
outbound calls it performs under the responses fixed by `env`. -/
def handle_pull_request_event (env : Env) (payload : PREventPayload)
    (installation_id : Int) (force_review : Bool) (previous_review : Option String) :
    List Call :=
  let pr := payload.pull_request
  let repo := payload.repository
  let t0 : List Call :=
    if payload.action == "opened" then
      [Call.logPR pr.number repo.full_name pr.title pr.user.login]
    else []
  if !force_review && (getBotLastComment env pr.comments_url).isSome then
    t0 ++ [Call.getComments pr.comments_url]
  else
    let t1 := if force_review then t0 else t0 ++ [Call.getComments pr.comments_url]
    let t2 := t1 ++ credLookupCalls repo.full_name installation_id
    match get_gemini_client_for_install env repo.full_name installation_id with
    | none => t2 ++ [Call.postComment pr.comments_url setupMsg]
    | some gemini =>
      match force_review, pyTruthyStr previous_review with
      | true, some prev =>
        let t3 := t2 ++ [Call.getPRDiff pr.diff_url]
        match pyTruthyStr (env.prDiff pr.diff_url) with
        | none => t3
        | some diff =>
          let p := followUpPrompt pr.title diff prev
          t3 ++ [Call.llmCall gemini.api_key p,
                 Call.postComment pr.comments_url
                   (followUpBody pr.user.login (env.llm gemini.api_key p))]
      | _, _ =>
        if pr.draft then
          t2 ++ [Call.postComment pr.comments_url (draftMsg pr.user.login)]
        else
          let t3 := t2 ++ [Call.getPRFiles repo.full_name pr.number]
          match env.prFiles repo.full_name pr.number with
          | none => t3
          | some files =>
            if files.isEmpty then t3
            else
              let filenames := files.map (fun f => f.filename)
              if filenames.all trivialName then
                t3 ++ [Call.postComment pr.comments_url (trivialMsg pr.user.login)]
              else
                let t4 := t3 ++ [Call.getConfigFile repo.full_name]
                let custom_rules :=
                  match env.configRules repo.full_name with
                  | some rs => rs
                  | none => []
                let t5 := t4 ++ [Call.getPRDiff pr.diff_url]
                match pyTruthyStr (env.prDiff pr.diff_url) with
                | none => t5
                | some diff =>
                  let valid := files.filter (fun f => f.status != "removed")
                  let t6 := t5 ++ valid.map (fun f => Call.getFileContent f.contents_url)
                  let file_contexts := valid.filterMap (fun f =>
                    match env.fileContent f.contents_url with
                    | some c => if c == "" then none else some (f.filename, c)
                    | none => none)
                  let p := analyzePrompt pr.title diff file_contexts custom_rules
                  let ai_review := env.llm gemini.api_key p
                  let t7 := t6 ++ [Call.llmCall gemini.api_key p]
                  if strHasSub ai_review "Error:" then t7
                  else t7 ++ [Call.postComment pr.comments_url
                                (reviewBody pr.user.login ai_review)]

/-- `handle_issue_event` (handlers.py 121-153) as a trace function. -/
def handle_issue_event (env : Env) (payload : IssueEventPayload)
    (installation_id : Int) : List Call :=
  let issue := payload.issue
  let repo := payload.repository
  if payload.action != "opened" then []
  else
    let t0 := [Call.logIssue issue.number repo.full_name issue.title issue.user.login]
    let t1 := t0 ++ [Call.getComments issue.comments_url]
    if (getBotLastComment env issue.comments_url).isSome then t1
    else
      let t2 := t1 ++ credLookupCalls repo.full_name installation_id
      match get_gemini_client_for_install env repo.full_name installation_id with
      | none => t2
      | some gemini =>
        let category := classify_issue env gemini.api_key issue.title issue.body
        let t3 := t2 ++ [Call.llmCall gemini.api_key (classifyPrompt issue.title issue.body)]
        if ["Bug Report", "Feature Request", "Spam/Unclear"].contains category then
          let qp := qualityPrompt issue.title issue.body
          t3 ++ [Call.llmCall gemini.api_key qp,
                 Call.postComment issue.comments_url
                   (issueHelperBody issue.user.login (env.llm gemini.api_key qp))]
        else if category == "Social" then
          let sp := socialPrompt issue.title issue.user.login
          t3 ++ [Call.llmCall gemini.api_key sp,
                 Call.postComment issue.comments_url (env.llm gemini.api_key sp),
                 Call.closeIssue repo.full_name issue.number]
        else if category == "Question" then
          t3 ++ [Call.postComment issue.comments_url (questionReply issue.user.login),
                 Call.closeIssue repo.full_name issue.number]
        else t3

/-- `handle_installation_event` (handlers.py 36-41): logging only, no calls. -/
def handle_installation_event (_payload : InstallationPayload) : List Call :=
  []

/-- `handle_issue_comment_event` (handlers.py 156-183) as a trace function. -/
def handle_issue_comment_event (env : Env) (payload : IssueCommentPayload)
    (installation_id : Int) : List Call :=
  let comment := payload.comment
  let issue := payload.issue
  let repo := payload.repository
  let is_summoned := strHasSub comment.body ("@" ++ env.botName)
  let is_on_pr := issue.pull_request.isSome
  let is_not_bot := comment.user.login != env.botName ++ "[bot]"
  if is_on_pr && is_summoned && is_not_bot then
    let t0 := [Call.getComments issue.comments_url]
    let previous_review_text :=
      match getBotLastComment env issue.comments_url with
      | some c => c.body
      | none => noRecordMsg
    let t1 := t0 ++ [Call.getPRDetails repo.full_name issue.number]
    match env.prDetails repo.full_name issue.number with
    | none => t1
    | some prd =>
      t1 ++ handle_pull_request_event env ⟨"synchronize", prd.1, prd.2⟩
              installation_id true (some previous_review_text)
  else []

/- ===== main.py: webhook dispatch ===== -/

inductive ParsedPayload where
  | pr (p : PREventPayload)
  | issue (p : IssueEventPayload)
  | issueComment (p : IssueCommentPayload)
  | installation (p : InstallationPayload)

/-- The `event_handlers` table keys (main.py 67-72). -/
def knownEvent (e : String) : Bool :=
  ((e == "pull_request" || e == "issues") || e == "issue_comment") || e == "installation"

/-- Validate the payload against the model declared for the event type
(main.py 75-77). -/
def parseFor (e : String) (payload : Json) : Option ParsedPayload :=
  if e == "pull_request" then (parsePREventPayload payload).map ParsedPayload.pr
  else if e == "issues" then (parseIssueEventPayload payload).map ParsedPayload.issue
  else if e == "issue_comment" then
    (parseIssueCommentPayload payload).map ParsedPayload.issueComment
  else if e == "installation" then
    (parseInstallationPayload payload).map ParsedPayload.installation
  else none

/-- `payload.get("installation", {}).get("id")` (main.py 62). -/
def installIdLookup (payload : Json) : Option Json :=
  ((payload.getField "installation").getD (Json.obj [])).getField "id"

/-- The installation id as the `int` the handlers are declared to take. -/
def jsonIdToInt (o : Option Json) : Int :=
  match o with
  | some (.num n) => n
  | _ => 0

/-- Dispatch a validated payload to its handler (main.py 79-84); the
installation handler takes no installation id. -/
def runHandler (env : Env) (pp : ParsedPayload) (installation_id : Int) : List Call :=
  match pp with
  | .pr p => handle_pull_request_event env p installation_id false none
  | .issue p => handle_issue_event env p installation_id
  | .issueComment p => handle_issue_comment_event env p installation_id
  | .installation p => handle_installation_event p

/-- The body of `github_webhook` (main.py 58-91), after the signature
dependency has passed: the returned status string and the trace of outbound
calls made by the invoked handler (empty when no handler ran). -/
def github_webhook (env : Env) (x_github_event : Option String) (payload : Json) :
    String × List Call :=
  let installation_id := installIdLookup payload
  if !truthyOptJson installation_id then ("error_no_installation_id", [])
  else
    match x_github_event with
    | some e =>
      if knownEvent e then
        match parseFor e payload with
        | some pp =>
          ("Event \x27" ++ e ++ "\x27 processed.", runHandler env pp (jsonIdToInt installation_id))
        | none => ("validation_error", [])
      else ("Event received, no handler.", [])
    | none => ("Event received, no handler.", [])

/- ===== main.py: signature verification =====
`hmac.new(secret.encode(), msg=body, digestmod=sha256).hexdigest()` is an
external library call; it is modelled by an abstract digest function
`mac : String → List Nat → List Nat` from the secret and the raw body bytes to
the digest bytes, and by the lowercase hex formatting below. -/

/-- Lowercase hex digit (0-9 then a-f), as `hexdigest` formats. -/
def hexDigitChar (n : Nat) : Char :=
  if n < 10 then Char.ofNat (48 + n) else Char.ofNat (87 + n)

def byteToHex (b : Nat) : List Char :=
  [hexDigitChar (b / 16), hexDigitChar (b % 16)]

/-- `hexdigest()` of a digest given as bytes. -/
def hexOfDigest (bs : List Nat) : String :=
  String.mk ((bs.map byteToHex).flatten)

inductive SigCheck where
  | ok
  | clientError (status_code : Nat) (detail : String)
deriving DecidableEq

/-- `verify_github_signature` (main.py 32-39): reject with 400 when the header
is missing (Python falsiness also rejects an empty header), compute
`"sha256=" + hexdigest` over the raw body, reject with 403 when it differs. -/
def verify_github_signature (mac : String → List Nat → List Nat)
    (secret : String) (body : List Nat) (x_hub_signature_256 : Option String) : SigCheck :=
  match x_hub_signature_256 with
  | none => SigCheck.clientError 400 "X-Hub-Signature-256 header is missing!"
  | some sig =>
    if sig == "" then SigCheck.clientError 400 "X-Hub-Signature-256 header is missing!"
    else
      let expected_signature := "sha256=" ++ hexOfDigest (mac secret body)
      if expected_signature == sig then SigCheck.ok
      else SigCheck.clientError 403 "Request signature does not match!"

/-- The webhook endpoint with its signature dependency (main.py 58): the
dependency runs first and a rejection short-circuits the endpoint, so the body
is neither decoded nor dispatched.  `decode` models `request.json()`. -/
def processWebhook (mac : String → List Nat → List Nat) (secret : String)
    (body : List Nat) (x_hub_signature_256 : Option String)
    (decode : List Nat → Json) (env : Env) (x_github_event : Option String) :
    SigCheck ⊕ (String × List Call) :=
  match verify_github_signature mac secret body x_hub_signature_256 with
  | SigCheck.ok => Sum.inr (github_webhook env x_github_event (decode body))
  | SigCheck.clientError c d => Sum.inl (SigCheck.clientError c d)

/-- A webhook outcome that is an HTTP client error (the request was rejected
before any handler ran). -/
def isRejected (r : SigCheck ⊕ (String × List Call)) : Bool :=
  match r with
  | Sum.inl (SigCheck.clientError _ _) => true
  | _ => false

/- ===== core/database.py ===== -/

/-- One row of the `pull_requests` / `issues` event-log tables; `created_at`
is irrelevant to the dashboard query and insertion order is the list order
(AUTOINCREMENT primary key). -/
structure EventRow where
  number : Int
  repo_full_name : String
  title : String
  author : String
deriving DecidableEq

/-- `log_pr_event` (database.py 64-70): append one row. -/
def log_pr_event (table : List EventRow) (pr_number : Int)
    (repo_full_name title author : String) : List EventRow :=
  table ++ [⟨pr_number, repo_full_name, title, author⟩]

/-- `log_issue_event` (database.py 72-78): append one row. -/
def log_issue_event (table : List EventRow) (issue_number : Int)
    (repo_full_name title author : String) : List EventRow :=
  table ++ [⟨issue_number, repo_full_name, title, author⟩]

/-- SQLite TEXT ordering (memcmp on UTF-8 bytes, i.e. codepoint-lexicographic). -/
def sqliteTextLt (a b : List Char) : Bool :=
  match a with
  | [] => !b.isEmpty
  | x :: xs =>
    match b with
    | [] => false
    | y :: ys => if x.toNat < y.toNat then true
                 else if y.toNat < x.toNat then false
                 else sqliteTextLt xs ys

/-- `MAX(title)` of SQLite over the rows of a table (database.py 85, 88):
the greatest title in SQLite TEXT order, `NULL` (none) on an empty table. -/
def sqlMaxTitle (titles : List String) : Option String :=
  titles.foldl (fun acc t =>
    match acc with
    | none => some t
    | some a => some (if sqliteTextLt a.data t.data then t else a)) none

structure DashboardStats where
  total_prs_opened : Int
  total_issues_opened : Int
  last_pr_title : String
  last_issue_title : String
  repo_health_status : String
deriving DecidableEq

/-- `get_dashboard_stats` (database.py 80-99): `COUNT(*)` and `MAX(title)` per
table, with falsy titles replaced by the "N/A" placeholder. -/
def get_dashboard_stats (pull_requests issues : List EventRow) : DashboardStats :=
  let pr_last := sqlMaxTitle (pull_requests.map (fun r => r.title))
  let issue_last := sqlMaxTitle (issues.map (fun r => r.title))
  ⟨Int.ofNat pull_requests.length,
   Int.ofNat issues.length,
   (match pr_last with
    | some t => if t == "" then "N/A" else t
    | none => "N/A"),
   (match issue_last with
    | some t => if t == "" then "N/A" else t
    | none => "N/A"),
   "Healthy"⟩

/- ===== Observations on traces ===== -/

def isPostComment : Call → Bool
  | .postComment _ _ => true
  | _ => false

def isDiffFetch : Call → Bool
  | .getPRDiff _ => true
  | _ => false

def isFileContentFetch : Call → Bool
  | .getFileContent _ => true
  | _ => false

def isConfigFetch : Call → Bool
  | .getConfigFile _ => true
  | _ => false

def isCloseIssue : Call → Bool
  | .closeIssue _ _ => true
  | _ => false

/- ===== Concrete fixtures used by the witnesses and counterexamples ===== -/

def prW : PullRequest :=
  ⟨7, "Add feature", some "", ⟨"alice"⟩, "https://api.github.com/c7", "https://api.github.com/d7", false⟩

def repoW : Repository := ⟨"octo/demo", ⟨"octo"⟩⟩

def prPayloadW : PREventPayload := ⟨"opened", prW, repoW⟩

def issueW : Issue :=
  ⟨3, "Hi there", some "Just saying hi", ⟨"bob"⟩, "https://api.github.com/i3", none⟩

def issuePayloadW : IssueEventPayload := ⟨"opened", issueW, repoW⟩

/-- A world with no prior comments, a database key, one non-trivial changed
file and a healthy diff and LLM. -/
def envClean : Env :=
  ⟨"pullrider",
   fun _ => some [],
   fun _ => some "dbk",
   none,
   fun _ _ => some [⟨"app.py", "modified", "cu1"⟩],
   fun _ => none,
   fun _ => some "DIFF",
   fun _ => some "content",
   fun _ _ => none,
   fun _ _ => "LGTM"⟩

/-- Like `envClean`, but the bot has already commented on every thread. -/
def envBot : Env :=
  ⟨"pullrider",
   fun _ => some [⟨"earlier review", ⟨"pullrider[bot]"⟩⟩],
   fun _ => some "dbk",
   none,
   fun _ _ => some [⟨"app.py", "modified", "cu1"⟩],
   fun _ => none,
   fun _ => some "DIFF",
   fun _ => some "content",
   fun _ _ => none,
   fun _ _ => "LGTM"⟩

/-- Like `envClean`, but the diff fetch fails (HTTP error → `None`). -/
def envNoDiff : Env :=
  ⟨"pullrider",
   fun _ => some [],
   fun _ => some "dbk",
   none,
   fun _ _ => some [⟨"app.py", "modified", "cu1"⟩],
   fun _ => none,
   fun _ => none,
   fun _ => some "content",
   fun _ _ => none,
   fun _ _ => "LGTM"⟩

/-- Like `envClean`, but the changed-file fetch succeeds with an empty list. -/
def envEmptyFiles : Env :=
  ⟨"pullrider",
   fun _ => some [],
   fun _ => some "dbk",
   none,
   fun _ _ => some [],
   fun _ => none,
   fun _ => some "DIFF",
   fun _ => some "content",
   fun _ _ => none,
   fun _ _ => "LGTM"⟩

/-- Like `envClean`, but every Gemini call fails with the error sentinel. -/
def envErrLLM : Env :=
  ⟨"pullrider",
   fun _ => some [],
   fun _ => some "dbk",
   none,
   fun _ _ => some [⟨"app.py", "modified", "cu1"⟩],
   fun _ => none,
   fun _ => some "DIFF",
   fun _ => some "content",
   fun _ _ => none,
   fun _ _ => "Error: Could not get a response from AI."⟩

/-- Like `envClean`, but the classifier answers "Social" to every prompt. -/
def envSocial : Env :=
  ⟨"pullrider",
   fun _ => some [],
   fun _ => some "dbk",
   none,
   fun _ _ => some [⟨"app.py", "modified", "cu1"⟩],
   fun _ => none,
   fun _ => some "DIFF",
   fun _ => some "content",
   fun _ _ => none,
   fun _ _ => "Social"⟩

/-- Like `envClean`, but with no database key and no fallback key. -/
def envNoKeys : Env :=
  ⟨"pullrider",
   fun _ => some [],
   fun _ => none,
   none,
   fun _ _ => some [⟨"app.py", "modified", "cu1"⟩],
   fun _ => none,
   fun _ => some "DIFF",
   fun _ => some "content",
   fun _ _ => none,
   fun _ _ => "LGTM"⟩

/-- A toy digest function standing in for HMAC-SHA256 in witnesses. -/
def macToy (secret : String) (body : List Nat) : List Nat :=
  [(secret.length + body.foldl (fun a b => a + b) 0) % 256]

/-- A toy body decoder standing in for `request.json()` in witnesses. -/
def decodeToy (_body : List Nat) : Json :=
  Json.obj [("installation", Json.obj [("id", Json.num 7)])]

/-- A payload whose only content is a truthy installation id. -/
def instOnlyPayload : Json :=
  Json.obj [("installation", Json.obj [("id", Json.num 7)])]

/-- Like `envClean`, but the changed files are documentation only. -/
def envDocs : Env :=
  ⟨"pullrider",
   fun _ => some [],
   fun _ => some "dbk",
   none,
   fun _ _ => some [⟨"README.md", "modified", "cuR"⟩, ⟨"notes.txt", "modified", "cuN"⟩],
   fun _ => none,
   fun _ => some "DIFF",
   fun _ => some "content",
   fun _ _ => none,
   fun _ _ => "LGTM"⟩

/-- Like `envClean`, but the classifier answers "Bug Report". -/
def envBug : Env :=
  ⟨"pullrider",
   fun _ => some [],
   fun _ => some "dbk",
   none,
   fun _ _ => some [⟨"app.py", "modified", "cu1"⟩],
   fun _ => none,
   fun _ => some "DIFF",
   fun _ => some "content",
   fun _ _ => none,
   fun _ _ => "Bug Report"⟩

/-- Like `envClean`, but the classifier answers "Question". -/
def envQuestion : Env :=
  ⟨"pullrider",
   fun _ => some [],
   fun _ => some "dbk",
   none,
   fun _ _ => some [⟨"app.py", "modified", "cu1"⟩],
   fun _ => none,
   fun _ => some "DIFF",
   fun _ => some "content",
   fun _ _ => none,
   fun _ _ => "Question"⟩

/-- Like `envClean`, but the classifier answers an unknown category. -/
def envUnknownCat : Env :=
  ⟨"pullrider",
   fun _ => some [],
   fun _ => some "dbk",
   none,
   fun _ _ => some [⟨"app.py", "modified", "cu1"⟩],
   fun _ => none,
   fun _ => some "DIFF",
   fun _ => some "content",
   fun _ _ => none,
   fun _ _ => "Philosophy"⟩

/- ===== Helper lemmas ===== -/

theorem getBotLastComment_isSome (env : Env) (url : String) (cs : List Comment)
    (c : Comment) (hcs : env.comments url = some cs) (hmem : c ∈ cs)
    (hlogin : c.user.login = env.botName ++ "[bot]") :
    (getBotLastComment env url).isSome = true := by
  unfold getBotLastComment
  rw [hcs]
  refine List.getLast?_isSome.mpr ?_
  intro hnil
  have hin : c ∈ cs.filter (fun c => c.user.login == env.botName ++ "[bot]") := by
    refine List.mem_filter.mpr ⟨hmem, ?_⟩
    simp [hlogin]
  rw [hnil] at hin
  exact absurd hin (List.not_mem_nil c)

theorem prPre_filter_eq_nil (cond : Bool) (a : Int) (b c d u rf : String)
    (iid : Int) (n : Int) (q : Call → Bool)
    (h1 : q (Call.logPR a b c d) = false) (h2 : q (Call.getComments u) = false)
    (h3 : q (Call.getRepoSecret rf "PULLRIDER_GEMINI_KEY") = false)
    (h4 : q (Call.getDbKey iid) = false) (h5 : q (Call.getPRFiles rf n) = false) :
    ((if cond then [Call.logPR a b c d] else []) ++ [Call.getComments u] ++
      credLookupCalls rf iid ++ [Call.getPRFiles rf n]).filter q = [] := by
  cases cond <;>
    simp [credLookupCalls, get_repo_secret, List.filter_append, List.filter_cons,
      h1, h2, h3, h4, h5]

theorem filter_map_getFileContent_self (q : Call → Bool) (l : List ChangedFile)
    (h : ∀ u, q (Call.getFileContent u) = true) :
    (l.map (fun f => Call.getFileContent f.contents_url)).filter q =
      l.map (fun f => Call.getFileContent f.contents_url) := by
  induction l with
  | nil => rfl
  | cons x xs ih => simp [List.filter_cons, h, ih]

theorem filter_map_getFileContent_nil (q : Call → Bool) (l : List ChangedFile)
    (h : ∀ u, q (Call.getFileContent u) = false) :
    (l.map (fun f => Call.getFileContent f.contents_url)).filter q = [] := by
  induction l with
  | nil => rfl
  | cons x xs ih => simp [List.filter_cons, h, ih]

theorem pr_files_stage (env : Env) (payload : PREventPayload) (installation_id : Int)
    (previous_review : Option String) (g : GeminiClient) (files : List ChangedFile)
    (hbot : getBotLastComment env payload.pull_request.comments_url = none)
    (hcred : get_gemini_client_for_install env payload.repository.full_name installation_id = some g)
    (hdraft : payload.pull_request.draft = false)
    (hfiles : env.prFiles payload.repository.full_name payload.pull_request.number = some files)
    (hne : files.isEmpty = false) :
    handle_pull_request_event env payload installation_id false previous_review =
      ((if payload.action == "opened" then
          [Call.logPR payload.pull_request.number payload.repository.full_name
             payload.pull_request.title payload.pull_request.user.login]
        else []) ++
       [Call.getComments payload.pull_request.comments_url] ++
       credLookupCalls payload.repository.full_name installation_id ++
       [Call.getPRFiles payload.repository.full_name payload.pull_request.number]) ++
      (if (files.map (fun f => f.filename)).all trivialName then
         [Call.postComment payload.pull_request.comments_url
            (trivialMsg payload.pull_request.user.login)]
       else
         [Call.getConfigFile payload.repository.full_name,
          Call.getPRDiff payload.pull_request.diff_url] ++
         (match pyTruthyStr (env.prDiff payload.pull_request.diff_url) with
          | none => []
          | some diff =>
            (files.filter (fun f => f.status != "removed")).map
              (fun f => Call.getFileContent f.contents_url) ++
            [Call.llmCall g.api_key
               (analyzePrompt payload.pull_request.title diff
                 (((files.filter (fun f => f.status != "removed")).filterMap (fun f =>
                    match env.fileContent f.contents_url with
                    | some c => if c == "" then none else some (f.filename, c)
                    | none => none)))
                 (match env.configRules payload.repository.full_name with
                  | some rs => rs
                  | none => []))] ++
            (if strHasSub
                 (env.llm g.api_key
                   (analyzePrompt payload.pull_request.title diff
                     (((files.filter (fun f => f.status != "removed")).filterMap (fun f =>
                        match env.fileContent f.contents_url with
                        | some c => if c == "" then none else some (f.filename, c)
                        | none => none)))
                     (match env.configRules payload.repository.full_name with
                      | some rs => rs
                      | none => []))) "Error:" then []
             else
               [Call.postComment payload.pull_request.comments_url
                  (reviewBody payload.pull_request.user.login
                    (env.llm g.api_key
                      (analyzePrompt payload.pull_request.title diff
                        (((files.filter (fun f => f.status != "removed")).filterMap (fun f =>
                           match env.fileContent f.contents_url with
                           | some c => if c == "" then none else some (f.filename, c)
                           | none => none)))
                        (match env.configRules payload.repository.full_name with
                         | some rs => rs
                         | none => []))))]))) := by
  simp only [handle_pull_request_event]
  rw [hbot, hcred, hfiles]
  simp only [hdraft, hne, Option.isSome_none, Bool.not_false, Bool.true_and,
    Bool.false_eq_true, ite_false, if_false]
  split
  next h => simp [h, List.append_assoc]
  next h =>
    split
    next heq => simp [h, heq, List.append_assoc]
    next diff heq =>
      split
      next herr => simp [h, heq, herr, List.append_assoc]
      next herr => simp [h, heq, herr, List.append_assoc]

theorem pr_empty_files_stage (env : Env) (payload : PREventPayload) (installation_id : Int)
    (previous_review : Option String) (g : GeminiClient)
    (hbot : getBotLastComment env payload.pull_request.comments_url = none)
    (hcred : get_gemini_client_for_install env payload.repository.full_name installation_id = some g)
    (hdraft : payload.pull_request.draft = false)
    (hfiles : env.prFiles payload.repository.full_name payload.pull_request.number = some []) :
    handle_pull_request_event env payload installation_id false previous_review =
      (if payload.action == "opened" then
         [Call.logPR payload.pull_request.number payload.repository.full_name
            payload.pull_request.title payload.pull_request.user.login]
       else []) ++
      [Call.getComments payload.pull_request.comments_url] ++
      credLookupCalls payload.repository.full_name installation_id ++
      [Call.getPRFiles payload.repository.full_name payload.pull_request.number] := by
  simp only [handle_pull_request_event]
  rw [hbot, hcred, hfiles]
  simp [hdraft, List.append_assoc]

theorem pr_followup_stage (env : Env) (payload : PREventPayload) (installation_id : Int)
    (previous_review : Option String) (g : GeminiClient) (prev : String)
    (hprev : pyTruthyStr previous_review = some prev)
    (hcred : get_gemini_client_for_install env payload.repository.full_name installation_id = some g) :
    handle_pull_request_event env payload installation_id true previous_review =
      (if payload.action == "opened" then
         [Call.logPR payload.pull_request.number payload.repository.full_name
            payload.pull_request.title payload.pull_request.user.login]
       else []) ++
      credLookupCalls payload.repository.full_name installation_id ++
      [Call.getPRDiff payload.pull_request.diff_url] ++
      (match pyTruthyStr (env.prDiff payload.pull_request.diff_url) with
       | none => []
       | some diff =>
         [Call.llmCall g.api_key (followUpPrompt payload.pull_request.title diff prev),
          Call.postComment payload.pull_request.comments_url
            (followUpBody payload.pull_request.user.login
              (env.llm g.api_key (followUpPrompt payload.pull_request.title diff prev)))]) := by
  simp only [handle_pull_request_event]
  rw [hcred, hprev]
  simp only [Bool.not_true, Bool.false_and, Bool.false_eq_true, ite_false, if_false]
  split
  next heq => simp [heq, List.append_assoc]
  next diff heq => simp [heq, List.append_assoc]

theorem issue_stage (env : Env) (payload : IssueEventPayload) (installation_id : Int)
    (g : GeminiClient)
    (ha : payload.action = "opened")
    (hbot : getBotLastComment env payload.issue.comments_url = none)
    (hcred : get_gemini_client_for_install env payload.repository.full_name installation_id = some g) :
    handle_issue_event env payload installation_id =
      [Call.logIssue payload.issue.number payload.repository.full_name
         payload.issue.title payload.issue.user.login,
       Call.getComments payload.issue.comments_url] ++
      credLookupCalls payload.repository.full_name installation_id ++
      [Call.llmCall g.api_key (classifyPrompt payload.issue.title payload.issue.body)] ++
      (if ["Bug Report", "Feature Request", "Spam/Unclear"].contains
           (classify_issue env g.api_key payload.issue.title payload.issue.body) then
         [Call.llmCall g.api_key (qualityPrompt payload.issue.title payload.issue.body),
          Call.postComment payload.issue.comments_url
            (issueHelperBody payload.issue.user.login
              (env.llm g.api_key (qualityPrompt payload.issue.title payload.issue.body)))]
       else if classify_issue env g.api_key payload.issue.title payload.issue.body == "Social" then
         [Call.llmCall g.api_key (socialPrompt payload.issue.title payload.issue.user.login),
          Call.postComment payload.issue.comments_url
            (env.llm g.api_key (socialPrompt payload.issue.title payload.issue.user.login)),
          Call.closeIssue payload.repository.full_name payload.issue.number]
       else if classify_issue env g.api_key payload.issue.title payload.issue.body == "Question" then
         [Call.postComment payload.issue.comments_url (questionReply payload.issue.user.login),
          Call.closeIssue payload.repository.full_name payload.issue.number]
       else []) := by
  simp only [handle_issue_event]
  rw [ha, hbot, hcred]
  simp only [Option.isSome_none, Bool.false_eq_true, ite_false, if_false, bne_self_eq_false]
  split
  next h => simp [h, List.append_assoc]
  next h =>
    split
    next h2 => simp [h, h2, List.append_assoc]
    next h2 =>
      split
      next h3 => simp [h, h2, h3, List.append_assoc]
      next h3 => simp [h, h2, h3, List.append_assoc]

theorem hexDigitChar_inj : ∀ a < 16, ∀ b < 16, hexDigitChar a = hexDigitChar b → a = b := by
  decide

theorem flatten_byteToHex_inj (xs : List Nat) :
    ∀ ys : List Nat, (∀ b ∈ xs, b < 256) → (∀ b ∈ ys, b < 256) →
    (xs.map byteToHex).flatten = (ys.map byteToHex).flatten → xs = ys := by
  induction xs with
  | nil =>
    intro ys _ _ h
    cases ys with
    | nil => rfl
    | cons y ys' => simp [byteToHex] at h
  | cons x xs ih =>
    intro ys hx hy h
    cases ys with
    | nil => simp [byteToHex] at h
    | cons y ys' =>
      simp only [List.map_cons, List.flatten_cons, byteToHex, List.cons_append,
        List.nil_append, List.cons.injEq] at h
      obtain ⟨h1, h2, h3⟩ := h
      have hxlt : x < 256 := hx x (List.mem_cons_self x xs)
      have hylt : y < 256 := hy y (List.mem_cons_self y ys')
      have e1 : x / 16 = y / 16 :=
        hexDigitChar_inj (x / 16) (by omega) (y / 16) (by omega) h1
      have e2 : x % 16 = y % 16 :=
        hexDigitChar_inj (x % 16) (by omega) (y % 16) (by omega) h2
      have : x = y := by omega
      subst this
      have := ih ys' (fun b hb => hx b (List.mem_cons_of_mem x hb))
        (fun b hb => hy b (List.mem_cons_of_mem x hb)) (by simpa [byteToHex] using h3)
      rw [this]

theorem hexOfDigest_inj (xs ys : List Nat) (hx : ∀ b ∈ xs, b < 256)
    (hy : ∀ b ∈ ys, b < 256) (h : hexOfDigest xs = hexOfDigest ys) : xs = ys := by
  refine flatten_byteToHex_inj xs ys hx hy ?_
  have := congrArg String.data h
  simpa [hexOfDigest] using this

theorem sha_header_ne_empty (s : String) : (("sha256=" ++ s) == ("" : String)) = false := by
  refine beq_eq_false_iff_ne.mpr ?_
  intro h
  have := congrArg String.length h
  rw [String.length_append] at this
  have h7 : ("sha256=" : String).length = 7 := rfl
  have h0 : ("" : String).length = 0 := rfl
  omega

/- ===== C1 ===== -/

/-- C1: with `force_review` false, if the fetched comment thread contains a
comment authored by the bot identity, `handle_pull_request_event` stops right
after that check: the full trace is the optional open-event log plus the single
comments fetch — no credential lookup, comment post, diff or file fetch. -/
theorem pr_stops_when_bot_already_commented (env : Env) (payload : PREventPayload)
    (installation_id : Int) (previous_review : Option String)
    (cs : List Comment) (c : Comment)
    (hcs : env.comments payload.pull_request.comments_url = some cs) (hmem : c ∈ cs)
    (hlogin : c.user.login = env.botName ++ "[bot]") :
    handle_pull_request_event env payload installation_id false previous_review =
      (if payload.action == "opened" then
        [Call.logPR payload.pull_request.number payload.repository.full_name
           payload.pull_request.title payload.pull_request.user.login]
       else []) ++ [Call.getComments payload.pull_request.comments_url] := by
  have hS := getBotLastComment_isSome env payload.pull_request.comments_url cs c hcs hmem hlogin
  unfold handle_pull_request_event
  simp [hS]

/-- Witness for C1 at a concrete world: the bot already commented, so the
handler only logs the opened PR and fetches the comments. -/
theorem pr_stops_when_bot_already_commented_witness :
    handle_pull_request_event envBot prPayloadW 7 false none =
      [Call.logPR 7 "octo/demo" "Add feature" "alice",
       Call.getComments "https://api.github.com/c7"] := by
  have := pr_stops_when_bot_already_commented envBot prPayloadW 7 none
    [⟨"earlier review", ⟨"pullrider[bot]"⟩⟩] ⟨"earlier review", ⟨"pullrider[bot]"⟩⟩
    rfl (by decide) rfl
  simpa using this

/- ===== C2 ===== -/

/-- C2 counterexample: a non-draft, non-forced PR with a resolved credential
and the non-empty, non-trivial changed-file list ["app.py"], in a world where
the diff fetch fails: the trivial branch does not fire and the diff fetch is
issued, but no file-content fetch ever occurs, refuting "when it does not
fire, the diff and file-content fetches occur". -/
theorem trivial_branch_counterexample :
    prW.draft = false ∧
    get_gemini_client_for_install envNoDiff "octo/demo" 7 = some ⟨"dbk"⟩ ∧
    envNoDiff.prFiles "octo/demo" 7 = some [⟨"app.py", "modified", "cu1"⟩] ∧
    (([⟨"app.py", "modified", "cu1"⟩] : List ChangedFile).map
       (fun f => f.filename)).all trivialName = false ∧
    (handle_pull_request_event envNoDiff prPayloadW 7 false none).filter isDiffFetch =
      [Call.getPRDiff "https://api.github.com/d7"] ∧
    (handle_pull_request_event envNoDiff prPayloadW 7 false none).filter isFileContentFetch
      = [] := by
  refine ⟨rfl, rfl, rfl, by decide, by decide, by decide⟩

/-- Specialized filter facts for the batch of file-content fetches. -/
theorem map_getFileContent_filter_self (l : List ChangedFile) :
    (l.map (fun f => Call.getFileContent f.contents_url)).filter isFileContentFetch =
      l.map (fun f => Call.getFileContent f.contents_url) :=
  filter_map_getFileContent_self isFileContentFetch l (fun _ => rfl)

theorem map_getFileContent_filter_post (l : List ChangedFile) :
    (l.map (fun f => Call.getFileContent f.contents_url)).filter isPostComment = [] :=
  filter_map_getFileContent_nil isPostComment l (fun _ => rfl)

theorem map_getFileContent_filter_diff (l : List ChangedFile) :
    (l.map (fun f => Call.getFileContent f.contents_url)).filter isDiffFetch = [] :=
  filter_map_getFileContent_nil isDiffFetch l (fun _ => rfl)

theorem map_getFileContent_filter_config (l : List ChangedFile) :
    (l.map (fun f => Call.getFileContent f.contents_url)).filter isConfigFetch = [] :=
  filter_map_getFileContent_nil isConfigFetch l (fun _ => rfl)

/-- C2 (amended): for a non-draft, non-forced PR where the bot has not yet
commented, with a resolved credential and a non-empty changed-file list, the
trivial-change branch fires iff every filename ends with ".md" or ".txt" or
contains ".gitignore"; when it fires, exactly the acknowledgement comment is
posted and no config, diff or file-content fetch occurs; when it does not
fire, the config and diff fetches occur, and the per-file content fetches (one
per changed file not marked "removed") occur exactly when the diff fetch
returns non-empty content. -/
theorem trivial_change_short_circuit (env : Env) (payload : PREventPayload)
    (installation_id : Int) (previous_review : Option String) (g : GeminiClient)
    (f : ChangedFile) (fs : List ChangedFile)
    (hbot : getBotLastComment env payload.pull_request.comments_url = none)
    (hcred : get_gemini_client_for_install env payload.repository.full_name installation_id = some g)
    (hdraft : payload.pull_request.draft = false)
    (hfiles : env.prFiles payload.repository.full_name payload.pull_request.number = some (f :: fs)) :
    (((f :: fs).map (fun x => x.filename)).all trivialName = true →
      (handle_pull_request_event env payload installation_id false previous_review).filter
          isPostComment =
        [Call.postComment payload.pull_request.comments_url
           (trivialMsg payload.pull_request.user.login)] ∧
      (handle_pull_request_event env payload installation_id false previous_review).filter
          isDiffFetch = [] ∧
      (handle_pull_request_event env payload installation_id false previous_review).filter
          isFileContentFetch = [] ∧
      (handle_pull_request_event env payload installation_id false previous_review).filter
          isConfigFetch = []) ∧
    (((f :: fs).map (fun x => x.filename)).all trivialName = false →
      (handle_pull_request_event env payload installation_id false previous_review).filter
          isConfigFetch = [Call.getConfigFile payload.repository.full_name] ∧
      (handle_pull_request_event env payload installation_id false previous_review).filter
          isDiffFetch = [Call.getPRDiff payload.pull_request.diff_url] ∧
      (∀ d, pyTruthyStr (env.prDiff payload.pull_request.diff_url) = some d →
        (handle_pull_request_event env payload installation_id false previous_review).filter
            isFileContentFetch =
          ((f :: fs).filter (fun x => x.status != "removed")).map
            (fun x => Call.getFileContent x.contents_url)) ∧
      (pyTruthyStr (env.prDiff payload.pull_request.diff_url) = none →
        (handle_pull_request_event env payload installation_id false previous_review).filter
            isFileContentFetch = [])) := by
  rw [pr_files_stage env payload installation_id previous_review g (f :: fs)
    hbot hcred hdraft hfiles rfl]
  constructor
  · intro hA
    rw [hA]
    refine ⟨?_, ?_, ?_, ?_⟩ <;>
      cases hact : (payload.action == "opened") <;>
        simp [hact, List.filter_append, List.filter_cons, credLookupCalls, get_repo_secret,
          isPostComment, isDiffFetch, isFileContentFetch, isConfigFetch]
  · intro hB
    rw [hB]
    simp only [Bool.false_eq_true, if_false, ite_false]
    refine ⟨?_, ?_, ?_, ?_⟩
    · cases hact : (payload.action == "opened") <;>
        cases hd : pyTruthyStr (env.prDiff payload.pull_request.diff_url) <;>
          simp [hact, hd, List.filter_append, List.filter_cons, credLookupCalls,
            get_repo_secret, isConfigFetch, map_getFileContent_filter_config]
    · cases hact : (payload.action == "opened") <;>
        cases hd : pyTruthyStr (env.prDiff payload.pull_request.diff_url) <;>
          simp [hact, hd, List.filter_append, List.filter_cons, credLookupCalls,
            get_repo_secret, isDiffFetch, map_getFileContent_filter_diff]
    · intro d hd
      rw [hd]
      cases hact : (payload.action == "opened") <;>
        simp [hact, List.filter_append, List.filter_cons, credLookupCalls,
          get_repo_secret, isFileContentFetch, map_getFileContent_filter_self]
    · intro hd
      rw [hd]
      cases hact : (payload.action == "opened") <;>
        simp [hact, List.filter_append, List.filter_cons, credLookupCalls,
          get_repo_secret, isFileContentFetch]

/- ===== C9 ===== -/

/-- C9: when the changed-file fetch succeeds but returns an empty list, the
handler returns right after that fetch — the trace ends at the files fetch and
contains no comment post at all, even though the trivial predicate is
vacuously true over an empty list. -/
theorem empty_changed_files_stops (env : Env) (payload : PREventPayload)
    (installation_id : Int) (previous_review : Option String) (g : GeminiClient)
    (hbot : getBotLastComment env payload.pull_request.comments_url = none)
    (hcred : get_gemini_client_for_install env payload.repository.full_name installation_id = some g)
    (hdraft : payload.pull_request.draft = false)
    (hfiles : env.prFiles payload.repository.full_name payload.pull_request.number = some []) :
    handle_pull_request_event env payload installation_id false previous_review =
      (if payload.action == "opened" then
         [Call.logPR payload.pull_request.number payload.repository.full_name
            payload.pull_request.title payload.pull_request.user.login]
       else []) ++
      [Call.getComments payload.pull_request.comments_url] ++
      credLookupCalls payload.repository.full_name installation_id ++
      [Call.getPRFiles payload.repository.full_name payload.pull_request.number] ∧
    (handle_pull_request_event env payload installation_id false previous_review).filter
        isPostComment = [] ∧
    (([] : List ChangedFile).map (fun x => x.filename)).all trivialName = true := by
  have hstage := pr_empty_files_stage env payload installation_id previous_review g
    hbot hcred hdraft hfiles
  refine ⟨hstage, ?_, rfl⟩
  rw [hstage]
  cases hact : (payload.action == "opened") <;>
    simp [hact, List.filter_append, List.filter_cons, credLookupCalls, get_repo_secret,
      isPostComment]

/-- Witness for C9: a concrete world whose changed-file fetch returns `[]`. -/
theorem empty_changed_files_stops_witness :
    handle_pull_request_event envEmptyFiles prPayloadW 7 false none =
      [Call.logPR 7 "octo/demo" "Add feature" "alice",
       Call.getComments "https://api.github.com/c7",
       Call.getRepoSecret "octo/demo" "PULLRIDER_GEMINI_KEY",
       Call.getDbKey 7,
       Call.getPRFiles "octo/demo" 7] ∧
    (handle_pull_request_event envEmptyFiles prPayloadW 7 false none).filter
        isPostComment = [] := by
  have T := empty_changed_files_stops envEmptyFiles prPayloadW 7 none ⟨"dbk"⟩
    rfl rfl rfl rfl
  exact ⟨by rw [T.1]; rfl, T.2.1⟩

/-- Witness for C2 at concrete worlds: the documentation-only changed set
{README.md, notes.txt} fires the trivial branch (one comment, no fetches),
while the set containing app.py does not (config, diff and file fetches). -/
theorem trivial_change_short_circuit_witness :
    (handle_pull_request_event envDocs prPayloadW 7 false none).filter isPostComment =
      [Call.postComment "https://api.github.com/c7" (trivialMsg "alice")] ∧
    (handle_pull_request_event envDocs prPayloadW 7 false none).filter isDiffFetch = [] ∧
    (handle_pull_request_event envDocs prPayloadW 7 false none).filter isFileContentFetch = [] ∧
    (handle_pull_request_event envClean prPayloadW 7 false none).filter isConfigFetch =
      [Call.getConfigFile "octo/demo"] ∧
    (handle_pull_request_event envClean prPayloadW 7 false none).filter isDiffFetch =
      [Call.getPRDiff "https://api.github.com/d7"] ∧
    (handle_pull_request_event envClean prPayloadW 7 false none).filter isFileContentFetch =
      [Call.getFileContent "cu1"] := by
  have T1 := (trivial_change_short_circuit envDocs prPayloadW 7 none ⟨"dbk"⟩
    ⟨"README.md", "modified", "cuR"⟩ [⟨"notes.txt", "modified", "cuN"⟩]
    rfl rfl rfl rfl).1 (by decide)
  have T2 := (trivial_change_short_circuit envClean prPayloadW 7 none ⟨"dbk"⟩
    ⟨"app.py", "modified", "cu1"⟩ [] rfl rfl rfl rfl).2 (by decide)
  refine ⟨?_, T1.2.1, T1.2.2.1, T2.1, T2.2.1, ?_⟩
  · rw [T1.1]; rfl
  · rw [T2.2.2.1 "DIFF" rfl]; rfl

/- ===== C5 ===== -/

/-- C5 counterexample: in the forced follow-up path the LLM failure sentinel
"Error: ..." is posted verbatim as a comment — the handler performs no
substring inspection there, refuting the claim for the follow-up path. -/
theorem followup_posts_error_counterexample :
    handle_pull_request_event envErrLLM prPayloadW 7 true (some "earlier review") =
      [Call.logPR 7 "octo/demo" "Add feature" "alice",
       Call.getRepoSecret "octo/demo" "PULLRIDER_GEMINI_KEY",
       Call.getDbKey 7,
       Call.getPRDiff "https://api.github.com/d7",
       Call.llmCall "dbk" (followUpPrompt "Add feature" "DIFF" "earlier review"),
       Call.postComment "https://api.github.com/c7"
         (followUpBody "alice" "Error: Could not get a response from AI.")] ∧
    strHasSub (followUpBody "alice" "Error: Could not get a response from AI.")
      "Error:" = true ∧
    (handle_pull_request_event envErrLLM prPayloadW 7 true (some "earlier review")).filter
        isPostComment ≠ [] := by
  refine ⟨rfl, by decide, by decide⟩

/-- C5 (amended): only the initial-review path inspects the LLM text — when
that text contains "Error:" the handler posts nothing; the follow-up-review,
issue-quality-analysis and social-reply paths post the LLM text without any
inspection (the posted comment is the LLM output verbatim in each case). -/
theorem error_sentinel_checked_only_in_initial_review :
    (∀ (env : Env) (payload : PREventPayload) (iid : Int) (prev : Option String)
       (g : GeminiClient) (f : ChangedFile) (fs : List ChangedFile) (d : String),
      getBotLastComment env payload.pull_request.comments_url = none →
      get_gemini_client_for_install env payload.repository.full_name iid = some g →
      payload.pull_request.draft = false →
      env.prFiles payload.repository.full_name payload.pull_request.number = some (f :: fs) →
      ((f :: fs).map (fun x => x.filename)).all trivialName = false →
      pyTruthyStr (env.prDiff payload.pull_request.diff_url) = some d →
      strHasSub (env.llm g.api_key (analyzePrompt payload.pull_request.title d
        (((f :: fs).filter (fun x => x.status != "removed")).filterMap (fun x =>
          match env.fileContent x.contents_url with
          | some c => if c == "" then none else some (x.filename, c)
          | none => none))
        (match env.configRules payload.repository.full_name with
         | some rs => rs
         | none => []))) "Error:" = true →
      (handle_pull_request_event env payload iid false prev).filter isPostComment = []) ∧
    (∀ (env : Env) (payload : PREventPayload) (iid : Int) (previous_review : Option String)
       (g : GeminiClient) (prev d : String),
      pyTruthyStr previous_review = some prev →
      get_gemini_client_for_install env payload.repository.full_name iid = some g →
      pyTruthyStr (env.prDiff payload.pull_request.diff_url) = some d →
      (handle_pull_request_event env payload iid true previous_review).filter isPostComment =
        [Call.postComment payload.pull_request.comments_url
          (followUpBody payload.pull_request.user.login
            (env.llm g.api_key (followUpPrompt payload.pull_request.title d prev)))]) ∧
    (∀ (env : Env) (payload : IssueEventPayload) (iid : Int) (g : GeminiClient),
      payload.action = "opened" →
      getBotLastComment env payload.issue.comments_url = none →
      get_gemini_client_for_install env payload.repository.full_name iid = some g →
      ["Bug Report", "Feature Request", "Spam/Unclear"].contains
        (classify_issue env g.api_key payload.issue.title payload.issue.body) = true →
      (handle_issue_event env payload iid).filter isPostComment =
        [Call.postComment payload.issue.comments_url
          (issueHelperBody payload.issue.user.login
            (env.llm g.api_key (qualityPrompt payload.issue.title payload.issue.body)))]) ∧
    (∀ (env : Env) (payload : IssueEventPayload) (iid : Int) (g : GeminiClient),
      payload.action = "opened" →
      getBotLastComment env payload.issue.comments_url = none →
      get_gemini_client_for_install env payload.repository.full_name iid = some g →
      classify_issue env g.api_key payload.issue.title payload.issue.body = "Social" →
      (handle_issue_event env payload iid).filter isPostComment =
        [Call.postComment payload.issue.comments_url
          (env.llm g.api_key (socialPrompt payload.issue.title payload.issue.user.login))]) := by
  refine ⟨?_, ?_, ?_, ?_⟩
  · intro env payload iid prev g f fs d hbot hcred hdraft hfiles hnotriv hd herr
    rw [pr_files_stage env payload iid prev g (f :: fs) hbot hcred hdraft hfiles rfl]
    rw [hnotriv, hd]
    simp only [Bool.false_eq_true, if_false, ite_false, herr, if_true, ite_true]
    cases hact : (payload.action == "opened") <;>
      simp [hact, List.filter_append, List.filter_cons, credLookupCalls, get_repo_secret,
        isPostComment, map_getFileContent_filter_post]
  · intro env payload iid previous_review g prev d hprev hcred hd
    rw [pr_followup_stage env payload iid previous_review g prev hprev hcred, hd]
    cases hact : (payload.action == "opened") <;>
      simp [hact, List.filter_append, List.filter_cons, credLookupCalls, get_repo_secret,
        isPostComment]
  · intro env payload iid g ha hbot hcred hcat
    rw [issue_stage env payload iid g ha hbot hcred]
    rw [hcat]
    simp [List.filter_append, List.filter_cons, credLookupCalls, get_repo_secret,
      isPostComment]
  · intro env payload iid g ha hbot hcred hcat
    rw [issue_stage env payload iid g ha hbot hcred]
    rw [hcat]
    simp [List.filter_append, List.filter_cons, credLookupCalls, get_repo_secret,
      isPostComment]

/- ===== C3 ===== -/

/-- C3: for an opened issue where the bot has not commented and a credential
resolves, the post-classification side effects are exactly: one
quality-analysis comment and no close for {Bug Report, Feature Request,
Spam/Unclear}; one posted reply then one close for "Social"; one templated
reply then one close for "Question"; and nothing at all for any other
classifier output. -/
theorem issue_classifier_side_effects (env : Env) (payload : IssueEventPayload)
    (installation_id : Int) (g : GeminiClient)
    (ha : payload.action = "opened")
    (hbot : getBotLastComment env payload.issue.comments_url = none)
    (hcred : get_gemini_client_for_install env payload.repository.full_name installation_id = some g) :
    (["Bug Report", "Feature Request", "Spam/Unclear"].contains
        (classify_issue env g.api_key payload.issue.title payload.issue.body) = true →
      (handle_issue_event env payload installation_id).filter isPostComment =
        [Call.postComment payload.issue.comments_url
           (issueHelperBody payload.issue.user.login
             (env.llm g.api_key (qualityPrompt payload.issue.title payload.issue.body)))] ∧
      (handle_issue_event env payload installation_id).filter isCloseIssue = []) ∧
    (classify_issue env g.api_key payload.issue.title payload.issue.body = "Social" →
      handle_issue_event env payload installation_id =
        [Call.logIssue payload.issue.number payload.repository.full_name
           payload.issue.title payload.issue.user.login,
         Call.getComments payload.issue.comments_url] ++
        credLookupCalls payload.repository.full_name installation_id ++
        [Call.llmCall g.api_key (classifyPrompt payload.issue.title payload.issue.body),
         Call.llmCall g.api_key (socialPrompt payload.issue.title payload.issue.user.login),
         Call.postComment payload.issue.comments_url
           (env.llm g.api_key (socialPrompt payload.issue.title payload.issue.user.login)),
         Call.closeIssue payload.repository.full_name payload.issue.number]) ∧
    (classify_issue env g.api_key payload.issue.title payload.issue.body = "Question" →
      handle_issue_event env payload installation_id =
        [Call.logIssue payload.issue.number payload.repository.full_name
           payload.issue.title payload.issue.user.login,
         Call.getComments payload.issue.comments_url] ++
        credLookupCalls payload.repository.full_name installation_id ++
        [Call.llmCall g.api_key (classifyPrompt payload.issue.title payload.issue.body),
         Call.postComment payload.issue.comments_url
           (questionReply payload.issue.user.login),
         Call.closeIssue payload.repository.full_name payload.issue.number]) ∧
    (["Bug Report", "Feature Request", "Spam/Unclear"].contains
        (classify_issue env g.api_key payload.issue.title payload.issue.body) = false →
      classify_issue env g.api_key payload.issue.title payload.issue.body ≠ "Social" →
      classify_issue env g.api_key payload.issue.title payload.issue.body ≠ "Question" →
      handle_issue_event env payload installation_id =
        [Call.logIssue payload.issue.number payload.repository.full_name
           payload.issue.title payload.issue.user.login,
         Call.getComments payload.issue.comments_url] ++
        credLookupCalls payload.repository.full_name installation_id ++
        [Call.llmCall g.api_key (classifyPrompt payload.issue.title payload.issue.body)]) := by
  rw [issue_stage env payload installation_id g ha hbot hcred]
  refine ⟨?_, ?_, ?_, ?_⟩
  · intro hcat
    rw [hcat]
    simp [List.filter_append, List.filter_cons, credLookupCalls, get_repo_secret,
      isPostComment, isCloseIssue]
  · intro hcat
    rw [hcat]
    simp [List.append_assoc]
  · intro hcat
    rw [hcat]
    simp [List.append_assoc]
  · intro hcat hs hq
    rw [hcat]
    simp only [Bool.false_eq_true, if_false, ite_false]
    rw [if_neg (by simpa using hs), if_neg (by simpa using hq)]
    simp [List.append_assoc]

/-- Witness for C3 at concrete worlds, one per classifier outcome: a Bug
Report analysis comment with no close, a Social reply plus close, a Question
template plus close, and no action for an unknown category. -/
theorem issue_classifier_side_effects_witness :
    (handle_issue_event envBug issuePayloadW 7).filter isPostComment =
      [Call.postComment "https://api.github.com/i3" (issueHelperBody "bob" "Bug Report")] ∧
    (handle_issue_event envBug issuePayloadW 7).filter isCloseIssue = [] ∧
    handle_issue_event envSocial issuePayloadW 7 =
      [Call.logIssue 3 "octo/demo" "Hi there" "bob",
       Call.getComments "https://api.github.com/i3",
       Call.getRepoSecret "octo/demo" "PULLRIDER_GEMINI_KEY",
       Call.getDbKey 7,
       Call.llmCall "dbk" (classifyPrompt "Hi there" (some "Just saying hi")),
       Call.llmCall "dbk" (socialPrompt "Hi there" "bob"),
       Call.postComment "https://api.github.com/i3" "Social",
       Call.closeIssue "octo/demo" 3] ∧
    handle_issue_event envQuestion issuePayloadW 7 =
      [Call.logIssue 3 "octo/demo" "Hi there" "bob",
       Call.getComments "https://api.github.com/i3",
       Call.getRepoSecret "octo/demo" "PULLRIDER_GEMINI_KEY",
       Call.getDbKey 7,
       Call.llmCall "dbk" (classifyPrompt "Hi there" (some "Just saying hi")),
       Call.postComment "https://api.github.com/i3" (questionReply "bob"),
       Call.closeIssue "octo/demo" 3] ∧
    handle_issue_event envUnknownCat issuePayloadW 7 =
      [Call.logIssue 3 "octo/demo" "Hi there" "bob",
       Call.getComments "https://api.github.com/i3",
       Call.getRepoSecret "octo/demo" "PULLRIDER_GEMINI_KEY",
       Call.getDbKey 7,
       Call.llmCall "dbk" (classifyPrompt "Hi there" (some "Just saying hi"))] := by
  have TB := issue_classifier_side_effects envBug issuePayloadW 7 ⟨"dbk"⟩ rfl rfl rfl
  have TS := issue_classifier_side_effects envSocial issuePayloadW 7 ⟨"dbk"⟩ rfl rfl rfl
  have TQ := issue_classifier_side_effects envQuestion issuePayloadW 7 ⟨"dbk"⟩ rfl rfl rfl
  have TU := issue_classifier_side_effects envUnknownCat issuePayloadW 7 ⟨"dbk"⟩ rfl rfl rfl
  refine ⟨?_, (TB.1 (by decide)).2, ?_, ?_, ?_⟩
  · have := (TB.1 (by decide)).1
    rw [this]; rfl
  · have := TS.2.1 (by decide)
    rw [this]; rfl
  · have := TQ.2.2.1 (by decide)
    rw [this]; rfl
  · have := TU.2.2.2 (by decide) (by decide) (by decide)
    rw [this]; rfl

/- ===== C4 ===== -/

/-- C4: credential resolution is exactly the first-present chain over
(repo secret, database key, operator fallback) — the repo-secret lookup is the
placeholder that always answers none, so the database key wins whenever it is
present, the fallback is used only when the database key is absent, and the
result is null when all three are absent. -/
theorem credential_resolution_chain (env : Env) (repo_full_name : String)
    (installation_id : Int) :
    get_gemini_client_for_install env repo_full_name installation_id =
      (specCredentialChain
        (pyTruthyStr (get_repo_secret repo_full_name "PULLRIDER_GEMINI_KEY"))
        (pyTruthyStr (env.dbKey installation_id))
        (pyTruthyStr env.fallbackKey)).map (fun k => ⟨k⟩) ∧
    get_repo_secret repo_full_name "PULLRIDER_GEMINI_KEY" = none ∧
    (∀ k, pyTruthyStr (env.dbKey installation_id) = some k →
      get_gemini_client_for_install env repo_full_name installation_id = some ⟨k⟩) ∧
    (pyTruthyStr (env.dbKey installation_id) = none →
      ∀ f, pyTruthyStr env.fallbackKey = some f →
        get_gemini_client_for_install env repo_full_name installation_id = some ⟨f⟩) ∧
    (pyTruthyStr (env.dbKey installation_id) = none →
      pyTruthyStr env.fallbackKey = none →
      get_gemini_client_for_install env repo_full_name installation_id = none) := by
  refine ⟨?_, rfl, ?_, ?_, ?_⟩
  · have hrs : pyTruthyStr (get_repo_secret repo_full_name "PULLRIDER_GEMINI_KEY") = none := rfl
    cases hdb : pyTruthyStr (env.dbKey installation_id) <;>
      cases hf : pyTruthyStr env.fallbackKey <;>
        simp [get_gemini_client_for_install, specCredentialChain, hrs, hdb, hf]
  · intro k hk
    unfold get_gemini_client_for_install get_repo_secret
    rw [hk]
    rfl
  · intro hdb f hf
    unfold get_gemini_client_for_install get_repo_secret
    rw [hdb, hf]
    rfl
  · intro hdb hf
    unfold get_gemini_client_for_install get_repo_secret
    rw [hdb, hf]
    rfl

/-- Witness for C4: with a database key present the client is built from it;
with no database key and no fallback the resolution yields none. -/
theorem credential_resolution_chain_witness :
    get_gemini_client_for_install envClean "octo/demo" 7 = some ⟨"dbk"⟩ ∧
    get_gemini_client_for_install envNoKeys "octo/demo" 7 = none := by
  refine ⟨(credential_resolution_chain envClean "octo/demo" 7).2.2.1 "dbk" rfl, ?_⟩
  exact (credential_resolution_chain envNoKeys "octo/demo" 7).2.2.2.2 rfl rfl

theorem sha_append_inj (a b : String) (h : "sha256=" ++ a = "sha256=" ++ b) : a = b := by
  have hd := congrArg String.data h
  simp only [String.data_append] at hd
  exact String.ext (List.append_cancel_left hd)

theorem reject_of_not_ok (mac : String → List Nat → List Nat) (secret : String)
    (body : List Nat) (hdr : Option String) (decode : List Nat → Json) (env : Env)
    (etype : Option String)
    (h : verify_github_signature mac secret body hdr ≠ SigCheck.ok) :
    isRejected (processWebhook mac secret body hdr decode env etype) = true := by
  unfold processWebhook
  cases hv : verify_github_signature mac secret body hdr with
  | ok => exact absurd hv h
  | clientError c d => rfl

theorem verify_ok_iff (mac : String → List Nat → List Nat) (secret : String)
    (body : List Nat) (h : String) :
    verify_github_signature mac secret body (some h) = SigCheck.ok ↔
      h = "sha256=" ++ hexOfDigest (mac secret body) := by
  simp only [verify_github_signature]
  by_cases hh : h = "sha256=" ++ hexOfDigest (mac secret body)
  · subst hh
    rw [sha_header_ne_empty]
    simp
  · constructor
    · intro hok
      by_cases he : h = ""
      · subst he
        simp at hok
      · rw [if_neg (by simpa using he)] at hok
        rw [if_neg] at hok
        · exact absurd hok (by simp)
        · simp
          exact fun hc => hh hc.symm
    · intro hc
      exact absurd hc hh

/- ===== C6 ===== -/

set_option maxRecDepth 4096 in
/-- C6: the signature gate accepts exactly the header
`"sha256=" ++ lowercase-hex(HMAC(secret, body))`; a missing (or empty) header
is rejected with 400; any other header value, and any body or secret change
that changes the digest, is rejected before the payload is decoded or any
handler runs; on acceptance the endpoint body runs.  The final conjunct checks
that the modelled hex formatting is lowercase. -/
theorem webhook_signature_gate (mac : String → List Nat → List Nat)
    (secret : String) (body : List Nat) (decode : List Nat → Json) (env : Env)
    (etype : Option String) :
    (∀ h, verify_github_signature mac secret body (some h) = SigCheck.ok ↔
       h = "sha256=" ++ hexOfDigest (mac secret body)) ∧
    verify_github_signature mac secret body none =
      SigCheck.clientError 400 "X-Hub-Signature-256 header is missing!" ∧
    (∀ h, h ≠ "sha256=" ++ hexOfDigest (mac secret body) →
      isRejected (processWebhook mac secret body (some h) decode env etype) = true) ∧
    (∀ body', mac secret body' ≠ mac secret body →
      (∀ b ∈ mac secret body', b < 256) → (∀ b ∈ mac secret body, b < 256) →
      isRejected (processWebhook mac secret body'
        (some ("sha256=" ++ hexOfDigest (mac secret body))) decode env etype) = true) ∧
    (∀ secret', mac secret' body ≠ mac secret body →
      (∀ b ∈ mac secret' body, b < 256) → (∀ b ∈ mac secret body, b < 256) →
      isRejected (processWebhook mac secret' body
        (some ("sha256=" ++ hexOfDigest (mac secret body))) decode env etype) = true) ∧
    processWebhook mac secret body (some ("sha256=" ++ hexOfDigest (mac secret body)))
        decode env etype = Sum.inr (github_webhook env etype (decode body)) ∧
    (∀ b, b < 256 → ∀ c ∈ byteToHex b, c.isDigit = true ∨ (97 ≤ c.toNat ∧ c.toNat ≤ 102)) := by
  refine ⟨verify_ok_iff mac secret body, rfl, ?_, ?_, ?_, ?_, by decide⟩
  · intro h hne
    refine reject_of_not_ok mac secret body (some h) decode env etype ?_
    intro hok
    exact hne ((verify_ok_iff mac secret body h).mp hok)
  · intro body' hmac hb1 hb2
    refine reject_of_not_ok mac secret body' _ decode env etype ?_
    intro hok
    have heq := (verify_ok_iff mac secret body' _).mp hok
    have hx := sha_append_inj _ _ heq
    exact hmac (hexOfDigest_inj _ _ hb2 hb1 hx).symm
  · intro secret' hmac hb1 hb2
    refine reject_of_not_ok mac secret' body _ decode env etype ?_
    intro hok
    have heq := (verify_ok_iff mac secret' body _).mp hok
    have hx := sha_append_inj _ _ heq
    exact hmac (hexOfDigest_inj _ _ hb2 hb1 hx).symm
  · have hok := (verify_ok_iff mac secret body
      ("sha256=" ++ hexOfDigest (mac secret body))).mpr rfl
    simp only [processWebhook]
    rw [hok]

/-- Witness for C6 with a concrete toy digest: a wrong header, a mutated body
and a mutated secret are each rejected, and the matching header is accepted
and runs the endpoint. -/
theorem webhook_signature_gate_witness :
    isRejected (processWebhook macToy "sec" [1, 2] (some "sha256=deadbeef")
      decodeToy envClean none) = true ∧
    isRejected (processWebhook macToy "sec" [1, 2, 3]
      (some ("sha256=" ++ hexOfDigest (macToy "sec" [1, 2]))) decodeToy envClean none) = true ∧
    isRejected (processWebhook macToy "secret2" [1, 2]
      (some ("sha256=" ++ hexOfDigest (macToy "sec" [1, 2]))) decodeToy envClean none) = true ∧
    processWebhook macToy "sec" [1, 2]
        (some ("sha256=" ++ hexOfDigest (macToy "sec" [1, 2]))) decodeToy envClean none =
      Sum.inr (github_webhook envClean none (decodeToy [1, 2])) := by
  have T := webhook_signature_gate macToy "sec" [1, 2] decodeToy envClean none
  exact ⟨T.2.2.1 "sha256=deadbeef" (by decide),
         T.2.2.2.1 [1, 2, 3] (by decide) (by decide) (by decide),
         T.2.2.2.2.1 "secret2" (by decide) (by decide) (by decide),
         T.2.2.2.2.2.1⟩

/- ===== C7 ===== -/

/-- C7 counterexample: the empty JSON object is a payload of the known event
type "pull_request" that is missing every required field of the declared PR
shape, yet the endpoint answers "error_no_installation_id" — not the
validation-error status — because the installation-id check runs first. -/
theorem validation_error_counterexample :
    parseFor "pull_request" (Json.obj []) = none ∧
    knownEvent "pull_request" = true ∧
    github_webhook envClean (some "pull_request") (Json.obj []) =
      ("error_no_installation_id", []) ∧
    "error_no_installation_id" ≠ "validation_error" := by
  refine ⟨rfl, rfl, rfl, by decide⟩

/-- C7 (amended): for a payload of a known event type that carries a truthy
installation id, a validation failure for the declared shape is caught: the
endpoint answers the "validation_error" status, and no handler runs (the
outbound-call trace is empty).  Without a truthy installation id the request
is answered earlier with "error_no_installation_id", also with no handler. -/
theorem validation_failure_no_side_effects (env : Env) (e : String) (payload : Json)
    (hknown : knownEvent e = true)
    (hinst : truthyOptJson (installIdLookup payload) = true)
    (hparse : parseFor e payload = none) :
    github_webhook env (some e) payload = ("validation_error", []) := by
  simp only [github_webhook]
  rw [hinst, hknown, hparse]
  rfl

/-- Witness for C7: a payload containing only a truthy installation id fails
PR validation and the endpoint answers "validation_error" with no calls. -/
theorem validation_failure_no_side_effects_witness :
    github_webhook envClean (some "pull_request") instOnlyPayload =
      ("validation_error", []) :=
  validation_failure_no_side_effects envClean "pull_request" instOnlyPayload
    rfl rfl rfl

/- ===== C10 ===== -/

/-- C10: a request whose JSON body lacks a truthy installation id is answered
with the status "error_no_installation_id" and an empty outbound trace — no
validation, no handler — for every event type, the "installation" type
included; stated over the full pipeline with a valid signature. -/
theorem missing_installation_id_short_circuit (env : Env) (etype : Option String)
    (payload : Json) (mac : String → List Nat → List Nat) (secret : String)
    (body : List Nat) (decode : List Nat → Json)
    (hinst : truthyOptJson (installIdLookup payload) = false) :
    github_webhook env etype payload = ("error_no_installation_id", []) ∧
    (decode body = payload →
      processWebhook mac secret body
          (some ("sha256=" ++ hexOfDigest (mac secret body))) decode env etype =
        Sum.inr ("error_no_installation_id", [])) := by
  have hmain : github_webhook env etype payload = ("error_no_installation_id", []) := by
    simp only [github_webhook]
    rw [hinst]
    rfl
  refine ⟨hmain, ?_⟩
  intro hdec
  have hok := (verify_ok_iff mac secret body
    ("sha256=" ++ hexOfDigest (mac secret body))).mpr rfl
  simp only [processWebhook]
  rw [hok, hdec, hmain]

/-- Witness for C10: the empty JSON object, sent with the "installation"
event type and a valid toy signature. -/
theorem missing_installation_id_short_circuit_witness :
    github_webhook envClean (some "installation") (Json.obj []) =
      ("error_no_installation_id", []) ∧
    processWebhook macToy "sec" [1, 2]
        (some ("sha256=" ++ hexOfDigest (macToy "sec" [1, 2])))
        (fun _ => Json.obj []) envClean (some "installation") =
      Sum.inr ("error_no_installation_id", []) := by
  have T := missing_installation_id_short_circuit envClean (some "installation")
    (Json.obj []) macToy "sec" [1, 2] (fun _ => Json.obj []) rfl
  exact ⟨T.1, T.2 rfl⟩

/- ===== C8 ===== -/

/-- C8: the dashboard count is the number of logged events, but the "last
title" field is SQLite's `MAX(title)` — the lexicographically greatest title —
not the most recently logged one: after logging "zeta" then "alpha" the
dashboard reports "zeta" while the last logged title is "alpha". -/
theorem dashboard_last_title_is_lexicographic_max :
    get_dashboard_stats
        (log_pr_event (log_pr_event [] 1 "octo/demo" "zeta" "u1") 2 "octo/demo" "alpha" "u2")
        [] = ⟨2, 0, "zeta", "N/A", "Healthy"⟩ ∧
    ((log_pr_event (log_pr_event [] 1 "octo/demo" "zeta" "u1") 2 "octo/demo" "alpha" "u2").map
        (fun r => r.title)).getLast? = some "alpha" ∧
    ("zeta" : String) ≠ "alpha" := by
  refine ⟨rfl, rfl, by decide⟩

/-- Witness for C5 (amended) at concrete worlds: the initial review aborts on
the sentinel, while the follow-up, quality-analysis and social paths post the
LLM output verbatim. -/
theorem error_sentinel_checked_only_in_initial_review_witness :
    (handle_pull_request_event envErrLLM prPayloadW 7 false none).filter isPostComment = [] ∧
    (handle_pull_request_event envErrLLM prPayloadW 7 true (some "p")).filter isPostComment =
      [Call.postComment "https://api.github.com/c7"
        (followUpBody "alice" "Error: Could not get a response from AI.")] ∧
    (handle_issue_event envBug issuePayloadW 7).filter isPostComment =
      [Call.postComment "https://api.github.com/i3" (issueHelperBody "bob" "Bug Report")] ∧
    (handle_issue_event envSocial issuePayloadW 7).filter isPostComment =
      [Call.postComment "https://api.github.com/i3" "Social"] := by
  have T := error_sentinel_checked_only_in_initial_review
  refine ⟨T.1 envErrLLM prPayloadW 7 none ⟨"dbk"⟩ ⟨"app.py", "modified", "cu1"⟩ [] "DIFF"
    rfl rfl rfl rfl (by decide) rfl (by decide), ?_, ?_, ?_⟩
  · have := T.2.1 envErrLLM prPayloadW 7 (some "p") ⟨"dbk"⟩ "p" "DIFF" rfl rfl rfl
    rw [this]
    rfl
  · have := T.2.2.1 envBug issuePayloadW 7 ⟨"dbk"⟩ rfl rfl rfl (by decide)
    rw [this]
    rfl
  · have := T.2.2.2 envSocial issuePayloadW 7 ⟨"dbk"⟩ rfl rfl rfl (by decide)
    rw [this]
    rfl
